import Mathlib

/-!
Verification development for the ttcr3d travel-time computation core
(`src/ttcr/Grid3Dr.h`, `src/ttcr/ttcr3d.cpp`).

The embedding is shallow: real-valued coordinates (`T1`) are modelled by
exact rationals `ℚ`, the unsigned index type `T2` by `ℤ` (the claims under
study do not depend on unsigned wrap-around), `std::vector` by `List`, and
fallible operations return `Option`.
-/

namespace Ttcr

/-- The `sxyz<T1>` value type: an immutable coordinate triple.  `operator==`
on `sxyz` is exact componentwise equality, modelled by `DecidableEq`. -/
structure Sxyz where
  x : ℚ
  y : ℚ
  z : ℚ
deriving DecidableEq, Repr

/-- The geometry fields of `Grid3Dr<T1,T2>` (Grid3Dr.h, lines 72-87),
together with the boundary-snapping epsilon `small` (a global constant in
the original program, carried here as an explicit field). -/
structure Grid3Dr where
  dx : ℚ
  dy : ℚ
  dz : ℚ
  xmin : ℚ
  ymin : ℚ
  zmin : ℚ
  ncx : ℕ
  ncy : ℕ
  ncz : ℕ
  small : ℚ
deriving DecidableEq, Repr

/-- `xmax = minx + nx*ddx`, as computed by the constructor (Grid3Dr.h:42). -/
def Grid3Dr.xmax (g : Grid3Dr) : ℚ := g.xmin + g.ncx * g.dx

/-- `ymax = miny + ny*ddy` (Grid3Dr.h:42). -/
def Grid3Dr.ymax (g : Grid3Dr) : ℚ := g.ymin + g.ncy * g.dy

/-- `zmax = minz + nz*ddz` (Grid3Dr.h:42). -/
def Grid3Dr.zmax (g : Grid3Dr) : ℚ := g.zmin + g.ncz * g.dz

/-- `getNumberOfCells()` (Grid3Dr.h:65): `ncx*ncy*ncz`. -/
def Grid3Dr.getNumberOfCells (g : Grid3Dr) : ℕ := g.ncx * g.ncy * g.ncz

/-- `static_cast<T2>(q)` on a floating value: truncation toward zero. -/
def truncQ (q : ℚ) : ℤ := if 0 ≤ q then ⌊q⌋ else -⌊-q⌋

/-- The per-axis computation of `getCellNo` (Grid3Dr.h:89-97): snap a
coordinate lying within `small` of the axis maximum to `max - 0.5*cellSize`,
then truncate `small + (coord - min)/cellSize`.  All three axes of the
source perform literally this computation with their own parameters. -/
def cellCoord (cmin d small cmax c : ℚ) : ℤ :=
  let c' := if cmax - c < small then cmax - (1/2) * d else c
  truncQ (small + (c' - cmin) / d)

/-- `getCellNo(const sxyz<T1>&)` (Grid3Dr.h:89-97). -/
def Grid3Dr.getCellNo (g : Grid3Dr) (pt : Sxyz) : ℤ :=
  let nx := cellCoord g.xmin g.dx g.small g.xmax pt.x
  let ny := cellCoord g.ymin g.dy g.small g.ymax pt.y
  let nz := cellCoord g.zmin g.dz g.small g.zmax pt.z
  ny * g.ncx + nz * (g.ncx * g.ncy) + nx

/-- Capability set of the `NODE` template parameter of the second
`getCellNo` overload (Grid3Dr.h:100-109): anything exposing
`getX/getY/getZ` accessors. -/
class NodeLike (α : Type) where
  getX : α → ℚ
  getY : α → ℚ
  getZ : α → ℚ

/-- The templated overload `getCellNo(const NODE&)` (Grid3Dr.h:100-109). -/
def Grid3Dr.getCellNoNode {α : Type} [NodeLike α] (g : Grid3Dr) (node : α) : ℤ :=
  let nx := cellCoord g.xmin g.dx g.small g.xmax (NodeLike.getX node)
  let ny := cellCoord g.ymin g.dy g.small g.ymax (NodeLike.getY node)
  let nz := cellCoord g.zmin g.dz g.small g.zmax (NodeLike.getZ node)
  ny * g.ncx + nz * (g.ncx * g.ncy) + nx

/-- A concrete node-like entity, standing in for the grid-node classes that
instantiate the `NODE` template parameter in the original program. -/
structure GridNode where
  nodeX : ℚ
  nodeY : ℚ
  nodeZ : ℚ
deriving DecidableEq, Repr

instance : NodeLike GridNode :=
  ⟨GridNode.nodeX, GridNode.nodeY, GridNode.nodeZ⟩

/-- The out-of-bounds test of `check_pts` (Grid3Dr.h:121-123): some
coordinate strictly outside the closed per-axis interval. -/
def outside (g : Grid3Dr) (p : Sxyz) : Prop :=
  p.x < g.xmin ∨ g.xmax < p.x ∨ p.y < g.ymin ∨ g.ymax < p.y ∨
    p.z < g.zmin ∨ g.zmax < p.z

instance (g : Grid3Dr) (p : Sxyz) : Decidable (outside g p) := by
  unfold outside; infer_instance

/-- The loop of `check_pts` (Grid3Dr.h:120-128), with the running index `n`
made explicit.  `some k` models "print point number `k` and return 1";
`none` models "return 0". -/
def check_pts_go (g : Grid3Dr) : ℕ → List Sxyz → Option ℕ
  | _, [] => none
  | n, p :: rest => if outside g p then some (n + 1) else check_pts_go g (n + 1) rest

/-- `check_pts` (Grid3Dr.h:117-130). -/
def Grid3Dr.check_pts (g : Grid3Dr) (pts : List Sxyz) : Option ℕ :=
  check_pts_go g 0 pts

/-! ### Orchestrator: thread count and work partitioning (ttcr3d.cpp:41-52, 154-210) -/

/-- The thread-count policy of `body` (ttcr3d.cpp:42-50).  `nt` is the
configured count (`par.nt`, 0 = auto), `nTx` the number of sources,
`hardware` the value reported by `std::thread::hardware_concurrency()`. -/
def numThreads (nt nTx hardware : ℕ) : ℕ :=
  if nt = 0 then
    let min_per_thread := 5
    let max_threads := (nTx + min_per_thread - 1) / min_per_thread
    min (if hardware ≠ 0 then hardware else 2) max_threads
  else
    if nt < nTx then nt else nTx

/-- `blk_size = (nTx%num_threads ? 1 : 0) + nTx/num_threads` (ttcr3d.cpp:52). -/
def blkSize (nTx nThreads : ℕ) : ℕ :=
  (if nTx % nThreads ≠ 0 then 1 else 0) + nTx / nThreads

/-- The half-open source ranges handed to the `num_threads - 1` spawned
workers (ttcr3d.cpp:154-187): worker `i` loops `n` from `blk_start` to
`blk_end`, with `blk_start` advancing by `blk_size` each iteration, i.e.
worker `i` owns `[i*blk_size, (i+1)*blk_size)`. -/
def workerBlocks (nTx nThreads : ℕ) : List (ℕ × ℕ) :=
  (List.range (nThreads - 1)).map
    (fun i => (i * blkSize nTx nThreads, (i + 1) * blkSize nTx nThreads))

/-- The tail block the main thread runs itself (ttcr3d.cpp:188-207):
`for (n = blk_start; n < nTx; ++n)` with `blk_start = (num_threads-1)*blk_size`. -/
def mainBlock (nTx nThreads : ℕ) : ℕ × ℕ :=
  ((nThreads - 1) * blkSize nTx nThreads, nTx)

/-- All blocks, worker blocks first, then the main thread's tail block. -/
def allBlocks (nTx nThreads : ℕ) : List (ℕ × ℕ) :=
  workerBlocks nTx nThreads ++ [mainBlock nTx nThreads]

/-- The source indices a half-open block `[a, b)` actually visits. -/
def blockIndices (b : ℕ × ℕ) : List ℕ := List.range' b.1 (b.2 - b.1)

/-- Concatenation of the indices visited by every block, in block order. -/
def coveredIndices (nTx nThreads : ℕ) : List ℕ :=
  (allBlocks nTx nThreads).flatMap blockIndices

/-! ### Ray-path stitching (ttcr3d.cpp:326-347 and 383-404) -/

/-- A ray path: an ordered sequence of points. -/
abbrev Path := List Sxyz

/-- The inner matching loop for one receiver (ttcr3d.cpp:330-341): scan the
source-to-reflector paths in order; on the first whose `.back()` equals
`pt1`, emit that whole path followed by the receiver-side path minus its
first point, and break.  If no path matches, the receiver's slot keeps its
initial empty value.  `.back()` on an empty path is undefined in the
original program, modelled by `Option`. -/
def stitchScan (pt1 : Sxyz) (q : Path) : List Path → Option Path
  | [] => some []
  | p :: rest =>
    match p.getLast? with
    | none => none
    | some lastp =>
      if pt1 = lastp then some (p ++ q.drop 1) else stitchScan pt1 q rest

/-- The stitched reflected path for one receiver whose reflector-to-receiver
path is `q` (ttcr3d.cpp:329-341): read `pt1 = q[0]` (undefined on an empty
`q`, modelled by `Option`), then scan.  -/
def stitchOne (rflPaths : List Path) (q : Path) : Option Path :=
  match q.head? with
  | none => none
  | some pt1 => stitchScan pt1 q rflPaths

/-- The per-receiver loop building `r_tmp` (ttcr3d.cpp:327-342): every
receiver is processed independently. -/
def stitchAll (rflPaths : List Path) (qs : List Path) : List (Option Path) :=
  qs.map (stitchOne rflPaths)

/-! ### Binary ray-path persistence (ttcr3d.cpp:409-468) -/

/-- One token of the binary stream: either a length prefix (`size_t` write)
or a point (`sxyz<T>` record). -/
inductive Tok where
  | count : ℕ → Tok
  | point : Sxyz → Tok
deriving DecidableEq, Repr

/-- The write decision for the global binary ray-path file
(ttcr3d.cpp:311 and 409): the multi-source branch is taken when
`src.size() != 1`, and the file is written there iff
`par.saveRaypaths && reflectors.size() > 0`. -/
def binFileWritten (saveRaypaths : Bool) (nSrc nRefl : ℕ) : Bool :=
  decide (nSrc ≠ 1) && saveRaypaths && decide (0 < nRefl)

/-- One path as written (ttcr3d.cpp:425-428): its point count, then its
raw points. -/
def writePathToks (p : Path) : List Tok :=
  Tok.count p.length :: p.map Tok.point

/-- The direct-path section (ttcr3d.cpp:419-430): the source count, then per
source the path count followed by the paths. -/
def writeRData (r : List (List Path)) : List Tok :=
  Tok.count r.length ::
    r.flatMap (fun rs => Tok.count rs.length :: rs.flatMap writePathToks)

/-- A reflector-side section (ttcr3d.cpp:432-447 and 449-464): the reflector
count, then per reflector the source count, then per source the path count
followed by the paths. -/
def writeRflData (rr : List (List (List Path))) : List Tok :=
  Tok.count rr.length ::
    rr.flatMap (fun rn =>
      Tok.count rn.length ::
        rn.flatMap (fun rs => Tok.count rs.length :: rs.flatMap writePathToks))

/-- The whole binary file (ttcr3d.cpp:419-464): direct paths, then the
source-to-reflector sections, then the reflector-to-receiver sections. -/
def writeBin (r : List (List Path)) (rflR rfl2R : List (List (List Path))) :
    List Tok :=
  writeRData r ++ writeRflData rflR ++ writeRflData rfl2R

/-- Generic length-prefixed encoder, following the spec's description of the
format: every nesting level is preceded by its own element count. -/
def encList {α : Type} (f : α → List Tok) (xs : List α) : List Tok :=
  Tok.count xs.length :: xs.flatMap f

/-- A path in the spec's description: its point count followed by its points. -/
def encPath (p : Path) : List Tok :=
  Tok.count p.length :: p.map Tok.point

/-! ### Slowness assignment (Grid3Dr.h:68-69 and the spec's grid contract) -/

/-- Result of a slowness assignment. -/
inductive SlownessResult where
  | ok : SlownessResult
  | sizeError : SlownessResult
deriving DecidableEq, Repr

/-- The scalar overload `setSlowness(const T1)` (Grid3Dr.h:68): a `void`
function, it cannot fail. -/
def setSlownessScalar (_s : ℚ) : SlownessResult := SlownessResult.ok

/-- Modelled from the spec: the concrete overrides of
`setSlowness(const std::vector<T1>&)` live in the concrete grid classes
(e.g. `Grid3Drc.h`), which are not among the files shown; the base
`Grid3Dr.h:69` is a trivial default.  Per the spec's grid contract, the
assignment fails with a SlownessSizeError iff the sequence length differs
from the number of cells/nodes the concrete grid expects, and succeeds
otherwise. -/
def setSlownessVec (expected : ℕ) (s : List ℚ) : SlownessResult :=
  if s.length = expected then SlownessResult.ok else SlownessResult.sizeError

/-! ## Theorems -/

/-- A concrete well-formed grid used to instantiate hypotheses:
cell sizes 1, origin 0, 4×3×2 cells, `small = 1/1000`. -/
def gW : Grid3Dr := ⟨1, 1, 1, 0, 0, 0, 4, 3, 2, 1/1000⟩

/-- C1. The work partitioning of `body` is not exhaustive/in-range for every
`nSources ≥ 1`: with 5 sources and an explicit thread count of 4 (so
`num_threads = 4`, `blk_size = ceil(5/4) = 2`), the three spawned workers
receive the blocks `[0,2)`, `[2,4)`, `[4,6)` and the main thread the empty
tail `[6,5)`; block `[4,6)` extends past `nSources = 5`, the out-of-range
source index 5 is visited, and the concatenated blocks do not reproduce
`[0,5)`. -/
theorem partition_overrun_at_5_sources_4_threads :
    Ttcr.numThreads 4 5 8 = 4 ∧
    Ttcr.blkSize 5 4 = 2 ∧
    Ttcr.allBlocks 5 4 = [(0, 2), (2, 4), (4, 6), (6, 5)] ∧
    Ttcr.coveredIndices 5 4 = [0, 1, 2, 3, 4, 5] ∧
    Ttcr.coveredIndices 5 4 ≠ List.range 5 ∧
    ∃ b ∈ Ttcr.allBlocks 5 4, 5 < b.2 := by
  refine ⟨rfl, rfl, rfl, rfl, by decide, ⟨(4, 6), by decide⟩⟩

/-- C5. Thread-count policy (ttcr3d.cpp:42-50): an explicit `nt > 0` is
clamped to the number of sources; in auto mode (`nt = 0`) the count is the
minimum of the detected hardware concurrency (2 when undetectable) and
`ceil(nSources/5)`; in particular 23 sources with hardware concurrency 8
yield 5 threads, which is at most `ceil(23/5) = 5` and at most 8. -/
theorem numThreads_policy (nt nTx hardware : ℕ) :
    (0 < nt → Ttcr.numThreads nt nTx hardware = min nt nTx) ∧
    Ttcr.numThreads 0 nTx hardware =
      min (if hardware = 0 then 2 else hardware) (nTx ⌈/⌉ 5) ∧
    (Ttcr.numThreads 0 23 8 = 5 ∧
      Ttcr.numThreads 0 23 8 ≤ 23 ⌈/⌉ 5 ∧ Ttcr.numThreads 0 23 8 ≤ 8) := by
  refine ⟨?_, ?_, by decide, by decide, by decide⟩
  · intro hnt
    simp only [Ttcr.numThreads, if_neg (Nat.pos_iff_ne_zero.mp hnt)]
    split <;> omega
  · simp only [Ttcr.numThreads, if_pos rfl, Nat.ceilDiv_eq_add_pred_div]
    by_cases hh : hardware = 0 <;> simp [hh]

/-- Witness for C5 at a concrete input. -/
theorem numThreads_policy_witness :
    (0 < 4 ∧ Ttcr.numThreads 4 5 8 = min 4 5) ∧ Ttcr.numThreads 0 23 8 = 5 :=
  ⟨⟨by decide, (numThreads_policy 4 5 8).1 (by decide)⟩,
    (numThreads_policy 0 23 8).2.2.1⟩

/-- C7. `getCellNo` computes `ny*ncx + nz*(ncx*ncy) + nx` where each
per-axis number snaps a coordinate within `small` of the axis maximum to
`max − 0.5·cellSize` and then truncates `small + (coord − min)/cellSize`;
the raw-point overload and any node-like overload agree on equal
coordinates, and both are total functions. -/
theorem getCellNo_formula {α : Type} [NodeLike α] (g : Grid3Dr) (node : α)
    (pt : Sxyz) (hx : NodeLike.getX node = pt.x) (hy : NodeLike.getY node = pt.y)
    (hz : NodeLike.getZ node = pt.z) :
    g.getCellNoNode node = g.getCellNo pt ∧
    g.getCellNo pt =
      cellCoord g.ymin g.dy g.small g.ymax pt.y * g.ncx
        + cellCoord g.zmin g.dz g.small g.zmax pt.z * (g.ncx * g.ncy)
        + cellCoord g.xmin g.dx g.small g.xmax pt.x ∧
    cellCoord g.xmin g.dx g.small g.xmax pt.x =
      truncQ (g.small +
        ((if g.xmax - pt.x < g.small then g.xmax - (1/2) * g.dx else pt.x)
          - g.xmin) / g.dx) := by
  refine ⟨?_, rfl, rfl⟩
  simp only [Grid3Dr.getCellNoNode, Grid3Dr.getCellNo, hx, hy, hz]

/-- Witness for C7: a raw point and a node with the same coordinates inside
`gW` receive the same index, and the formula evaluates there. -/
theorem getCellNo_formula_witness :
    gW.getCellNoNode (GridNode.mk (5/2) (3/2) (1/2)) = gW.getCellNo ⟨5/2, 3/2, 1/2⟩ ∧
    gW.getCellNo ⟨5/2, 3/2, 1/2⟩ =
      cellCoord gW.ymin gW.dy gW.small gW.ymax (3/2) * gW.ncx
        + cellCoord gW.zmin gW.dz gW.small gW.zmax (1/2) * (gW.ncx * gW.ncy)
        + cellCoord gW.xmin gW.dx gW.small gW.xmax (5/2) :=
  ⟨(getCellNo_formula gW (GridNode.mk (5/2) (3/2) (1/2)) ⟨5/2, 3/2, 1/2⟩ rfl rfl rfl).1,
    (getCellNo_formula gW (GridNode.mk (5/2) (3/2) (1/2)) ⟨5/2, 3/2, 1/2⟩ rfl rfl rfl).2.1⟩

/-- C8. Slowness assignment: the vector form fails with a size error exactly
when the sequence length differs from the cell count the grid expects, and
the scalar form always succeeds. -/
theorem setSlowness_contract (g : Grid3Dr) (s : List ℚ) (v : ℚ) :
    (setSlownessVec g.getNumberOfCells s = SlownessResult.sizeError ↔
      s.length ≠ g.getNumberOfCells) ∧
    setSlownessScalar v = SlownessResult.ok := by
  constructor
  · unfold setSlownessVec
    split
    · simp [*]
    · simp [*]
  · rfl

/-- Witness for C8 at a concrete grid (24 cells) and lists of both lengths. -/
theorem setSlowness_contract_witness :
    (setSlownessVec gW.getNumberOfCells (List.replicate 7 1) = SlownessResult.sizeError ↔
      (List.replicate 7 (1 : ℚ)).length ≠ gW.getNumberOfCells) ∧
    setSlownessScalar 2 = SlownessResult.ok :=
  setSlowness_contract gW (List.replicate 7 1) 2

/-- A grid refuting C3 as stated: one 10×10×10 cell at the origin with
`small = 2`, which is below half the cell size (5) on every axis. -/
def gBad : Grid3Dr := ⟨10, 10, 10, 0, 0, 0, 1, 1, 1, 2⟩

/-- C3 counterexample.  `gBad` satisfies the claim's hypothesis
(`small` below half the cell size on each axis, and positive), yet the
point `(xmax, 5, 5)` — whose x coordinate equals the axis maximum — gets
per-axis x cell coordinate 2, not `ncx − 1 = 0`: the epsilon is compared
against a distance when snapping but added to a dimensionless cell count
before truncation, so only `small < 1/2` keeps boundary points in the last
cell. -/
theorem boundary_point_escapes_last_cell :
    (0 < gBad.small ∧ gBad.small < gBad.dx / 2 ∧
      gBad.small < gBad.dy / 2 ∧ gBad.small < gBad.dz / 2) ∧
    cellCoord gBad.xmin gBad.dx gBad.small gBad.xmax gBad.xmax = 2 ∧
    (gBad.ncx : ℤ) - 1 = 0 ∧
    gBad.getCellNo ⟨gBad.xmax, 5, 5⟩ = 6 ∧
    gBad.getNumberOfCells = 1 := by
  refine ⟨⟨by norm_num [gBad], by norm_num [gBad], by norm_num [gBad],
    by norm_num [gBad]⟩, ?_, by norm_num [gBad], ?_, by norm_num [gBad, Grid3Dr.getNumberOfCells]⟩
  · norm_num [gBad, cellCoord, truncQ, Grid3Dr.xmax]
  · norm_num [gBad, Grid3Dr.getCellNo, cellCoord, truncQ, Grid3Dr.xmax,
      Grid3Dr.ymax, Grid3Dr.zmax]

/-- Per-axis boundary snapping: at the axis maximum `cmin + nc·d`, with
`0 < small < 1/2`, a positive cell size and at least one cell, the cell
coordinate is `nc − 1`. -/
lemma cellCoord_at_max (cmin d small : ℚ) (nc : ℕ)
    (h0 : 0 < small) (h2 : small < 1/2) (hd : 0 < d) (hnc : 1 ≤ nc) :
    cellCoord cmin d small (cmin + nc * d) (cmin + nc * d) = (nc : ℤ) - 1 := by
  have hnc1 : (1 : ℚ) ≤ (nc : ℚ) := by exact_mod_cast hnc
  have hsnap : (cmin + (nc : ℚ) * d) - (cmin + (nc : ℚ) * d) < small := by linarith
  have hdiv : ((cmin + (nc : ℚ) * d - 1/2 * d) - cmin) / d = (nc : ℚ) - 1/2 := by
    field_simp
    ring
  simp only [cellCoord, if_pos hsnap]
  rw [hdiv]
  have hv : (0 : ℚ) ≤ small + ((nc : ℚ) - 1/2) := by linarith
  simp only [truncQ, if_pos hv]
  rw [Int.floor_eq_iff]
  constructor
  · push_cast
    linarith
  · push_cast
    linarith

/-- C3 amended.  For every grid whose snapping epsilon `small` is positive
and less than 1/2 (a dimensionless bound — not merely less than half the
cell size), with positive cell sizes and at least one cell per axis, a
point whose coordinate on some axis equals that axis's maximum gets
per-axis cell coordinate equal to the cell count minus one on that axis,
never an index past the end of the axis range. -/
theorem boundary_point_maps_to_last_cell (g : Grid3Dr) (pt : Sxyz)
    (h0 : 0 < g.small) (h2 : g.small < 1/2)
    (hdx : 0 < g.dx) (hdy : 0 < g.dy) (hdz : 0 < g.dz)
    (hncx : 1 ≤ g.ncx) (hncy : 1 ≤ g.ncy) (hncz : 1 ≤ g.ncz) :
    (pt.x = g.xmax → cellCoord g.xmin g.dx g.small g.xmax pt.x = (g.ncx : ℤ) - 1) ∧
    (pt.y = g.ymax → cellCoord g.ymin g.dy g.small g.ymax pt.y = (g.ncy : ℤ) - 1) ∧
    (pt.z = g.zmax → cellCoord g.zmin g.dz g.small g.zmax pt.z = (g.ncz : ℤ) - 1) := by
  refine ⟨fun hx => ?_, fun hy => ?_, fun hz => ?_⟩
  · rw [hx, Grid3Dr.xmax]
    exact cellCoord_at_max g.xmin g.dx g.small g.ncx h0 h2 hdx hncx
  · rw [hy, Grid3Dr.ymax]
    exact cellCoord_at_max g.ymin g.dy g.small g.ncy h0 h2 hdy hncy
  · rw [hz, Grid3Dr.zmax]
    exact cellCoord_at_max g.zmin g.dz g.small g.ncz h0 h2 hdz hncz

/-- Witness for the amended C3 at the concrete grid `gW`: the point at the
upper corner lands in the last cell on the x axis. -/
theorem boundary_point_maps_to_last_cell_witness :
    (0 < gW.small ∧ gW.small < 1/2) ∧
    cellCoord gW.xmin gW.dx gW.small gW.xmax
      (Sxyz.mk gW.xmax gW.ymax gW.zmax).x = (gW.ncx : ℤ) - 1 :=
  ⟨⟨by norm_num [gW], by norm_num [gW]⟩,
    (boundary_point_maps_to_last_cell gW ⟨gW.xmax, gW.ymax, gW.zmax⟩
      (by norm_num [gW]) (by norm_num [gW]) (by norm_num [gW]) (by norm_num [gW])
      (by norm_num [gW]) (by norm_num [gW]) (by norm_num [gW]) (by norm_num [gW])).1 rfl⟩

/-- C2. Ray-path stitching: when the receiver-side path `q` starts at `pt1`
and the source-to-reflector paths are `pre ++ p0 :: post`, with `p0` the
first path whose last point equals `pt1` (every path in `pre` has a last
point different from `pt1`), the stitched path is exactly `p0` followed by
`q` minus its first point — the junction appears once. -/
theorem stitch_junction_once (pre post : List Path) (p0 q : Path) (pt1 : Sxyz)
    (hq : q.head? = some pt1) (hp0 : p0.getLast? = some pt1)
    (hpre : ∀ p ∈ pre, ∃ lp, p.getLast? = some lp ∧ lp ≠ pt1) :
    stitchOne (pre ++ p0 :: post) q = some (p0 ++ q.drop 1) := by
  simp only [stitchOne, hq]
  induction pre with
  | nil =>
    simp [stitchScan, hp0]
  | cons p pre ih =>
    obtain ⟨lp, hlp, hne⟩ := hpre p (by simp)
    have htail := ih (fun p' hp' => hpre p' (by simp [hp']))
    simp only [List.cons_append, stitchScan, hlp]
    rw [if_neg (fun hh => hne hh.symm)]
    exact htail

/-- Witness for C2: the spec's synthetic example.  Stitching
`[(0,0,0),(1,0,0),(2,0,0)]` with `[(2,0,0),(3,0,0)]` yields
`[(0,0,0),(1,0,0),(2,0,0),(3,0,0)]`, the shared point appearing once. -/
theorem stitch_junction_once_witness :
    stitchOne [[⟨0,0,0⟩, ⟨1,0,0⟩, ⟨2,0,0⟩]] [⟨2,0,0⟩, ⟨3,0,0⟩] =
      some [⟨0,0,0⟩, ⟨1,0,0⟩, ⟨2,0,0⟩, ⟨3,0,0⟩] := by
  have h := stitch_junction_once [] [] [⟨0,0,0⟩, ⟨1,0,0⟩, ⟨2,0,0⟩]
    [⟨2,0,0⟩, ⟨3,0,0⟩] ⟨2,0,0⟩ rfl rfl (by simp)
  simpa using h

/-- C9. Safety of the stitching reads: when the receiver-side path and all
source-to-reflector paths are non-empty, the reads `q[0]` and `p.back()`
performed by the stitching loop are all in range, so the `Option`-indexed
embedding never yields `none`. -/
theorem stitch_reads_in_range (rflPaths : List Path) (q : Path)
    (hq : q ≠ []) (hps : ∀ p ∈ rflPaths, p ≠ []) :
    (stitchOne rflPaths q).isSome = true := by
  obtain ⟨pt1, hpt1⟩ : ∃ a, q.head? = some a := by
    cases q with
    | nil => exact absurd rfl hq
    | cons a q => exact ⟨a, rfl⟩
  simp only [stitchOne, hpt1]
  induction rflPaths with
  | nil => rfl
  | cons p rest ih =>
    obtain ⟨lp, hlp⟩ : ∃ a, p.getLast? = some a := by
      have hp : p ≠ [] := hps p (by simp)
      cases hlast : p.getLast? with
      | none => exact absurd (List.getLast?_eq_none_iff.mp hlast) hp
      | some a => exact ⟨a, rfl⟩
    simp only [stitchScan, hlp]
    split
    · rfl
    · exact ih (fun p' hp' => hps p' (by simp [hp']))

/-- Witness for C9 at concrete non-empty paths. -/
theorem stitch_reads_in_range_witness :
    (stitchOne [[⟨0,0,0⟩, ⟨1,1,1⟩]] [⟨5,5,5⟩, ⟨6,6,6⟩]).isSome = true :=
  stitch_reads_in_range [[⟨0,0,0⟩, ⟨1,1,1⟩]] [⟨5,5,5⟩, ⟨6,6,6⟩]
    (by simp) (by simp)

/-- Auxiliary: the scan over paths none of whose last points match `pt1`
leaves the receiver's slot at its initial empty value. -/
lemma stitchScan_no_match (pt1 : Sxyz) (q : Path) (ps : List Path)
    (h : ∀ p ∈ ps, ∃ lp, p.getLast? = some lp ∧ lp ≠ pt1) :
    stitchScan pt1 q ps = some [] := by
  induction ps with
  | nil => rfl
  | cons p rest ih =>
    obtain ⟨lp, hlp, hne⟩ := h p (by simp)
    simp only [stitchScan, hlp]
    rw [if_neg (fun hh => hne hh.symm)]
    exact ih (fun p' hp' => h p' (by simp [hp']))

/-- C10. No-match behavior: if no source-to-reflector path's last point
equals the first point of receiver `i`'s reflector-to-receiver path, then
receiver `i`'s stitched output is the empty path — silently dropped, with
no failure — and every other receiver's slot is still the independently
stitched value of its own path. -/
theorem stitch_no_match_drops_silently (rflPaths qs : List Path) (i : ℕ)
    (q : Path) (pt1 : Sxyz) (hqi : qs[i]? = some q) (hq : q.head? = some pt1)
    (hnom : ∀ p ∈ rflPaths, ∃ lp, p.getLast? = some lp ∧ lp ≠ pt1) :
    (stitchAll rflPaths qs)[i]? = some (some []) ∧
    ∀ j : ℕ, (stitchAll rflPaths qs)[j]? = (qs[j]?).map (stitchOne rflPaths) := by
  have hmap : ∀ j : ℕ, (stitchAll rflPaths qs)[j]? = (qs[j]?).map (stitchOne rflPaths) := by
    intro j
    simp [stitchAll]
  refine ⟨?_, hmap⟩
  rw [hmap i, hqi]
  simp only [Option.map_some', stitchOne, hq]
  rw [stitchScan_no_match pt1 q rflPaths hnom]

/-- Witness for C10: a two-receiver list where the first receiver's path has
no matching reflector-side path (its first point `(9,9,9)` is nobody's last
point) and the second one matches. -/
theorem stitch_no_match_drops_silently_witness :
    (stitchAll [[⟨0,0,0⟩, ⟨1,0,0⟩]] [[⟨9,9,9⟩, ⟨7,7,7⟩], [⟨1,0,0⟩, ⟨3,0,0⟩]])[0]? =
      some (some []) ∧
    (stitchAll [[⟨0,0,0⟩, ⟨1,0,0⟩]] [[⟨9,9,9⟩, ⟨7,7,7⟩], [⟨1,0,0⟩, ⟨3,0,0⟩]])[1]? =
      some (some [⟨0,0,0⟩, ⟨1,0,0⟩, ⟨3,0,0⟩]) := by
  have h := stitch_no_match_drops_silently [[⟨0,0,0⟩, ⟨1,0,0⟩]]
    [[⟨9,9,9⟩, ⟨7,7,7⟩], [⟨1,0,0⟩, ⟨3,0,0⟩]] 0 [⟨9,9,9⟩, ⟨7,7,7⟩] ⟨9,9,9⟩
    rfl rfl (by intro p hp; simp at hp; exact ⟨⟨1,0,0⟩, by simp [hp], by simp [hp, Sxyz.mk.injEq]⟩)
  refine ⟨h.1, ?_⟩
  rw [h.2 1]
  rfl

/-- Auxiliary: success of the `check_pts` loop from counter `n` means every
remaining point is inside the closed bounds. -/
lemma check_pts_go_none_iff (g : Grid3Dr) (n : ℕ) (pts : List Sxyz) :
    check_pts_go g n pts = none ↔ ∀ p ∈ pts, ¬ outside g p := by
  induction pts generalizing n with
  | nil => simp [check_pts_go]
  | cons p rest ih =>
    by_cases h : outside g p
    · simp [check_pts_go, h]
    · simp [check_pts_go, h, ih]

/-- Auxiliary: the `check_pts` loop from counter `n` reports `k` exactly
when the first offending point sits at offset `i = k - n - 1`. -/
lemma check_pts_go_some_iff (g : Grid3Dr) (n : ℕ) (pts : List Sxyz) (k : ℕ) :
    check_pts_go g n pts = some k ↔
      ∃ i p, pts[i]? = some p ∧ outside g p ∧
        (∀ j q, j < i → pts[j]? = some q → ¬ outside g q) ∧ k = n + i + 1 := by
  induction pts generalizing n with
  | nil => simp [check_pts_go]
  | cons p rest ih =>
    by_cases h : outside g p
    · simp only [check_pts_go, if_pos h]
      constructor
      · intro hk
        obtain rfl : n + 1 = k := Option.some_inj.mp hk
        exact ⟨0, p, by simp, h, fun j q hj _ => absurd hj (Nat.not_lt_zero j), by omega⟩
      · rintro ⟨i, q, hq, hout, hprev, hk⟩
        cases i with
        | zero =>
          subst hk
          simp
        | succ i =>
          exact absurd h (hprev 0 p (Nat.succ_pos i) (by simp))
    · simp only [check_pts_go, if_neg h]
      rw [ih]
      constructor
      · rintro ⟨i, q, hq, hout, hprev, hk⟩
        refine ⟨i + 1, q, by simpa using hq, hout, ?_, by omega⟩
        intro j r hj hr
        cases j with
        | zero =>
          obtain rfl : p = r := by simpa using hr
          exact h
        | succ j =>
          exact hprev j r (by omega) (by simpa using hr)
      · rintro ⟨i, q, hq, hout, hprev, hk⟩
        cases i with
        | zero =>
          obtain rfl : p = q := by simpa using hq
          exact absurd hout h
        | succ i =>
          refine ⟨i, q, by simpa using hq, hout, ?_, by omega⟩
          intro j r hj hr
          exact hprev (j + 1) r (by omega) (by simpa using hr)

/-- C4. `check_pts` succeeds exactly when every coordinate of every point
lies in the closed per-axis interval (in particular on the empty list), and
it reports `some k` exactly when the first point with a coordinate strictly
outside its axis bounds sits at 0-based position `k − 1`. -/
theorem check_pts_first_offender (g : Grid3Dr) (pts : List Sxyz) :
    (g.check_pts pts = none ↔ ∀ p ∈ pts,
        g.xmin ≤ p.x ∧ p.x ≤ g.xmax ∧ g.ymin ≤ p.y ∧ p.y ≤ g.ymax ∧
        g.zmin ≤ p.z ∧ p.z ≤ g.zmax) ∧
    (∀ k, g.check_pts pts = some k ↔
      ∃ i p, pts[i]? = some p ∧ outside g p ∧
        (∀ j q, j < i → pts[j]? = some q → ¬ outside g q) ∧ k = i + 1) ∧
    g.check_pts ([] : List Sxyz) = none := by
  refine ⟨?_, ?_, rfl⟩
  · rw [Grid3Dr.check_pts, check_pts_go_none_iff]
    constructor
    · intro hall p hp
      have := hall p hp
      simpa [outside, not_or, not_lt] using this
    · intro hall p hp
      have := hall p hp
      simp only [outside, not_or, not_lt]
      tauto
  · intro k
    rw [Grid3Dr.check_pts, check_pts_go_some_iff]
    simp only [Nat.zero_add]

/-- Witness for C4: in `gW`, an all-inside list succeeds and a list whose
second point exceeds `xmax = 4` is reported as point number 2. -/
theorem check_pts_first_offender_witness :
    gW.check_pts [⟨1/2, 1/2, 1/2⟩] = none ∧
    gW.check_pts [⟨1/2, 1/2, 1/2⟩, ⟨5, 0, 0⟩] = some 2 := by
  constructor
  · refine (check_pts_first_offender gW [⟨1/2, 1/2, 1/2⟩]).1.mpr ?_
    intro p hp
    simp only [List.mem_singleton] at hp
    subst hp
    norm_num [gW, Grid3Dr.xmax, Grid3Dr.ymax, Grid3Dr.zmax]
  · refine ((check_pts_first_offender gW [⟨1/2, 1/2, 1/2⟩, ⟨5, 0, 0⟩]).2.1 2).mpr ?_
    refine ⟨1, ⟨5, 0, 0⟩, rfl, ?_, ?_, rfl⟩
    · refine Or.inr (Or.inl ?_)
      norm_num [gW, Grid3Dr.xmax]
    · intro j q hj hq
      obtain rfl : j = 0 := by omega
      simp only [List.getElem?_cons_zero, Option.some_inj] at hq
      subst hq
      norm_num [outside, gW, Grid3Dr.xmax, Grid3Dr.ymax, Grid3Dr.zmax]

/-- C6 counterexample.  With ray-path saving requested and two sources but
no reflectors, the multi-source binary ray-path file is not written: the
write is additionally guarded by `reflectors.size() > 0` (ttcr3d.cpp:409),
a condition the claim omits. -/
theorem binfile_skipped_without_reflectors :
    1 < 2 ∧ binFileWritten true 2 0 = false := by decide

/-- C6 amended.  Whenever ray-path saving is requested, more than one source
exists, and at least one reflector exists, the binary file is written and
its content is, in order, the direct paths for all sources, then the
source-to-reflector sections, then the reflector-to-receiver sections, with
every nesting level preceded by its own element count and each path written
as its point count followed by its points. -/
theorem binfile_format (sp : Bool) (nSrc nRefl : ℕ)
    (r : List (List Path)) (ra rb : List (List (List Path)))
    (hsp : sp = true) (hn : 1 < nSrc) (hr : 0 < nRefl) :
    binFileWritten sp nSrc nRefl = true ∧
    writeBin r ra rb =
      encList (encList encPath) r ++ encList (encList (encList encPath)) ra
        ++ encList (encList (encList encPath)) rb := by
  constructor
  · subst hsp
    simp only [binFileWritten, Bool.and_true, Bool.true_and, Bool.and_eq_true,
      decide_eq_true_eq]
    omega
  · rfl

/-- Witness for the amended C6 at a concrete input. -/
theorem binfile_format_witness :
    (1 < 2 ∧ 0 < 1) ∧
    (binFileWritten true 2 1 = true ∧
      writeBin [[[⟨0, 0, 0⟩, ⟨1, 0, 0⟩]], []] [[[[⟨2, 2, 2⟩]]]] [[[[⟨3, 3, 3⟩]]]] =
        encList (encList encPath) [[[⟨0, 0, 0⟩, ⟨1, 0, 0⟩]], []]
          ++ encList (encList (encList encPath)) [[[[⟨2, 2, 2⟩]]]]
          ++ encList (encList (encList encPath)) [[[[⟨3, 3, 3⟩]]]]) :=
  ⟨⟨by decide, by decide⟩,
    binfile_format true 2 1 [[[⟨0, 0, 0⟩, ⟨1, 0, 0⟩]], []] [[[[⟨2, 2, 2⟩]]]]
      [[[[⟨3, 3, 3⟩]]]] rfl (by decide) (by decide)⟩

end Ttcr
